import Mathlib

/-!
Shallow embedding of the orchestration core of `make-it-heavy-js`
(`src/orchestrator.ts`, with the second orchestrator variant embedded in
`src/make_it_heavy.ts`).

The effectful parts are made explicit:
* the decomposition worker call is abstracted by a `ParseResult` — the
  outcome of `JSON.parse(response.trim())` on the question agent's reply
  (throw, non-array value, or an array of strings);
* each per-slot worker call is abstracted by a `WorkerOutcome` — the time
  (in milliseconds from dispatch start) at which the call settles, and
  whether it resolved with a response or rejected with an error message;
* the synthesis worker call is abstracted by an `Except String String`
  (error message on rejection, response text on resolution).

Machine time is modelled with natural-number milliseconds; the
floating-point `execution_time` field (seconds) is modelled as a rational.
-/

/-- Outcome kind of one agent run: the `'success' | 'error' | 'timeout'`
union of `AgentResult.status` in `src/orchestrator.ts`. -/
inductive ResultStatus where
  | success
  | error
  | timeout
deriving DecidableEq, Repr

/-- The `AgentResult` record of `src/orchestrator.ts` (lines 56-61). -/
structure AgentResult where
  agent_id : Nat
  status : ResultStatus
  response : String
  execution_time : Rat
deriving DecidableEq, Repr

/-- Abstraction of one per-slot worker call (`OpenRouterAgent.run`): it
settles at `timeMs` milliseconds after its race started, either resolving
with a response or rejecting with an error message.  Worker latency is
unbounded, so `timeMs` may exceed the timeout. -/
inductive WorkerOutcome where
  | ok (response : String) (timeMs : Nat)
  | err (msg : String) (timeMs : Nat)
deriving DecidableEq, Repr

/-- The settling time of a worker call. -/
def WorkerOutcome.timeMs : WorkerOutcome → Nat
  | .ok _ t => t
  | .err _ t => t

/-- Abstraction of `JSON.parse(response.trim())` on the decomposition
worker's reply (orchestrator.ts lines 101-106): the call chain threw
(worker rejection or parse error), parsed to a non-array value, or parsed
to an array of strings. -/
inductive ParseResult where
  | fail
  | nonArray
  | arr (questions : List String)
deriving DecidableEq, Repr

/-- The hard-coded fallback question list of `decompose_task`
(orchestrator.ts lines 110-115): four prompts derived from `userInput`. -/
def fallbackQuestions (userInput : String) : List String :=
  [s!"Research comprehensive information about: {userInput}",
   s!"Analyze and provide insights about: {userInput}",
   s!"Find alternative perspectives on: {userInput}",
   s!"Verify and cross-check facts about: {userInput}"]

/-- `decompose_task` (orchestrator.ts lines 88-118) with the worker call
abstracted by `parsed`.  If the reply parses to an array whose length is
exactly `numAgents` it is returned verbatim; any other outcome (throw,
non-array, wrong length) is caught and answered with
`fallbackQuestions.slice(0, numAgents)`, i.e. `List.take numAgents`. -/
def decompose_task (userInput : String) (numAgents : Nat) (parsed : ParseResult) :
    List String :=
  match parsed with
  | .arr questions =>
      if questions.length = numAgents then questions
      else (fallbackQuestions userInput).take numAgents
  | _ => (fallbackQuestions userInput).take numAgents

/-- The timeout outcome resolved by the un-cancelled timer
(orchestrator.ts lines 218-228). -/
def timeout_result (taskTimeout i : Nat) : AgentResult :=
  { agent_id := i
    status := .timeout
    response := s!"Agent {i + 1} timed out after {taskTimeout}s"
    execution_time := (taskTimeout : Rat) }

/-- `Promise.race([taskPromise, timeoutPromise])` for slot `i`
(orchestrator.ts lines 215-231) together with `run_agent_parallel`
(lines 127-154): the race settles with the worker branch iff the worker
settles no later than the timer (`taskTimeout * 1000` ms; on a tie the
worker's timer was registered first and fires first).  A resolving worker
yields a success outcome with elapsed seconds `timeMs / 1000`; a rejecting
worker yields an error outcome with the synthesized `Error:` message and
elapsed time 0; otherwise the timer yields the timeout outcome. -/
def race_slot (taskTimeout i : Nat) (w : WorkerOutcome) : AgentResult :=
  match w with
  | .ok r t =>
      if t ≤ taskTimeout * 1000 then
        { agent_id := i, status := .success, response := r,
          execution_time := (t : Rat) / 1000 }
      else timeout_result taskTimeout i
  | .err m t =>
      if t ≤ taskTimeout * 1000 then
        { agent_id := i, status := .error, response := s!"Error: {m}",
          execution_time := 0 }
      else timeout_result taskTimeout i

/-- `agentResults.sort((a, b) => a.agent_id - b.agent_id)`
(orchestrator.ts line 234), modelled as a comparison sort by slot id. -/
def sortByAgentId (results : List AgentResult) : List AgentResult :=
  List.insertionSort (fun a b => a.agent_id ≤ b.agent_id) results

/-- The dispatch phase of `orchestrate` (orchestrator.ts lines 215-234):
one race per subtask slot, collected by `Promise.all` and then sorted by
slot id.  `behav i` is the behaviour of the worker launched for slot `i`. -/
def dispatch (taskTimeout : Nat) (behav : Nat → WorkerOutcome)
    (subtasks : List String) : List AgentResult :=
  sortByAgentId
    ((List.range subtasks.length).map (fun i => race_slot taskTimeout i (behav i)))

/-- `responses.map((resp, i) => "=== Agent " + (i+1) + " Response ===\n" + resp)`
(orchestrator.ts line 196 / make_it_heavy.ts line 470), with `start` the
0-based index of the first element. -/
def labelResponses (start : Nat) : List String → List String
  | [] => []
  | r :: rs => s!"=== Agent {start + 1} Response ===\n{r}" :: labelResponses (start + 1) rs

/-- `_aggregate_consensus` of `src/orchestrator.ts` (lines 172-198) with
the synthesis worker call abstracted by `synth`.  A single response is
returned verbatim; otherwise the synthesis reply is returned on success,
and on rejection the deterministic fallback joins the labelled responses
with `'\n\n'` (blank-line separation). -/
def aggregate_consensus (synth : Except String String) (responses : List String) :
    String :=
  match responses with
  | [r] => r
  | _ =>
      match synth with
      | .ok s => s
      | .error _ => String.intercalate "\n\n" (labelResponses 0 responses)

/-- `_aggregate_consensus` of the second orchestrator variant
(`src/make_it_heavy.ts` lines 450-472): identical except that the fallback
joins the labelled responses with `'\n'` (single newline). -/
def aggregate_consensus_v2 (synth : Except String String) (responses : List String) :
    String :=
  match responses with
  | [r] => r
  | _ =>
      match synth with
      | .ok s => s
      | .error _ => String.intercalate "\n" (labelResponses 0 responses)

/-- `aggregate_results` of `src/orchestrator.ts` (lines 156-170): filter to
successful outcomes; with none, return the fixed failure message as a
normal value; otherwise run consensus aggregation on the responses (the
strategy test has identical branches, kept here for fidelity). -/
def aggregate_results (strategy : String) (synth : Except String String)
    (agentResults : List AgentResult) : String :=
  let successfulResults := agentResults.filter (fun r => decide (r.status = .success))
  if successfulResults.length = 0 then
    "All agents failed to provide results. Please try again."
  else
    let responses := successfulResults.map (fun r => r.response)
    if strategy = "consensus" then aggregate_consensus synth responses
    else aggregate_consensus synth responses

/-- `aggregate_results` of the second orchestrator variant
(`src/make_it_heavy.ts` lines 442-449): same filter and empty-case message,
then consensus aggregation directly. -/
def aggregate_results_v2 (synth : Except String String)
    (agentResults : List AgentResult) : String :=
  let successfulResults := agentResults.filter (fun r => decide (r.status = .success))
  if successfulResults.length = 0 then
    "All agents failed to provide results. Please try again."
  else
    aggregate_consensus_v2 synth (successfulResults.map (fun r => r.response))

/-- The external behaviours one run of `orchestrate` depends on: the
decomposition worker's parsed reply, each slot's worker behaviour, and the
synthesis worker's outcome. -/
structure RunEnv where
  parsed : ParseResult
  behav : Nat → WorkerOutcome
  synth : Except String String

/-- The outcome sequence `agentResults` that `orchestrate`
(orchestrator.ts lines 204-238) hands to `aggregate_results`: dispatch
over the decomposed subtasks. -/
def orchestrate_outcomes (taskTimeout numAgents : Nat) (env : RunEnv)
    (userInput : String) : List AgentResult :=
  dispatch taskTimeout env.behav (decompose_task userInput numAgents env.parsed)

/-- `orchestrate` (orchestrator.ts lines 204-238): decompose, dispatch,
aggregate; returns the final result string. -/
def orchestrate (taskTimeout numAgents : Nat) (strategy : String) (env : RunEnv)
    (userInput : String) : String :=
  aggregate_results strategy env.synth
    (orchestrate_outcomes taskTimeout numAgents env userInput)

/-!
Progress-map trace model.  `update_agent_progress` writes a status string
into the `agent_progress` map (orchestrator.ts lines 120-125).  The timer
of `timeoutPromise` (lines 218-228) is registered with `setTimeout` and is
never cleared, so it runs its callback — including the
`update_agent_progress(i, "FAILED: Timeout")` write — even when the worker
branch already won the race; symmetrically, `run_agent_parallel`
(lines 127-154) writes `COMPLETED` or `FAILED: <msg>` when the worker
eventually settles even if the timer already won.  Both race branches of a
slot therefore write that slot's status, first the winner, later the
loser.
-/

/-- The status written by the branch that wins slot `i`'s race: the worker
branch (`COMPLETED` or `FAILED: <msg>`) when the worker settles within the
timeout, else the timer branch (`FAILED: Timeout`). -/
def winner_status (taskTimeout : Nat) (w : WorkerOutcome) : String :=
  if w.timeMs ≤ taskTimeout * 1000 then
    match w with
    | .ok _ _ => "COMPLETED"
    | .err m _ => s!"FAILED: {m}"
  else "FAILED: Timeout"

/-- The status later written by the branch that lost slot `i`'s race: the
un-cancelled timer's `FAILED: Timeout` when the worker won, else the
abandoned worker call's own completion status. -/
def loser_status (taskTimeout : Nat) (w : WorkerOutcome) : String :=
  if w.timeMs ≤ taskTimeout * 1000 then "FAILED: Timeout"
  else
    match w with
    | .ok _ _ => "COMPLETED"
    | .err m _ => s!"FAILED: {m}"

/-- The successive status values recorded for one slot after it is queued:
`PROCESSING...` at race start (orchestrator.ts line 129), then the winning
branch's status, then — because the losing branch is neither cancelled nor
guarded — the losing branch's status. -/
def slot_history (taskTimeout : Nat) (w : WorkerOutcome) : List String :=
  ["PROCESSING...", winner_status taskTimeout w, loser_status taskTimeout w]

/-- The ordered trace of `(slot, status)` progress writes performed during
one `orchestrate` run (orchestrator.ts lines 204-238), in one legal
serialization of the concurrent slot tasks: the sentinel `INITIALIZING...`
write, the `QUEUED` writes for slots `0..numAgents-1` (line 212), each
dispatched slot's `PROCESSING...` and winning-branch writes, the sentinel
`AGGREGATING...` write once all races have settled (line 236), and the
losing branches' late writes.  Only `subtasks.length` slots are dispatched
(the map on line 215 runs over `subtasks`). -/
def run_trace (taskTimeout numAgents : Nat) (env : RunEnv) (userInput : String) :
    List (Int × String) :=
  let subtasks := decompose_task userInput numAgents env.parsed
  [((-1 : Int), "INITIALIZING...")]
    ++ (List.range numAgents).map (fun (i : Nat) => ((i : Int), "QUEUED"))
    ++ (List.range subtasks.length).flatMap
        (fun (i : Nat) => [((i : Int), "PROCESSING..."),
                           ((i : Int), winner_status taskTimeout (env.behav i))])
    ++ [((-1 : Int), "AGGREGATING...")]
    ++ (List.range subtasks.length).map
        (fun (i : Nat) => ((i : Int), loser_status taskTimeout (env.behav i)))

/-!
Snapshot model of the progress map.  `agent_progress` is a JS `Map`, a
mutable heap object; `get_progress_status` (orchestrator.ts lines 200-202)
returns `new Map(this.agent_progress)` — a fresh object whose entries are
copied from the live map.  To state aliasing facts we model a heap of map
objects: an address is an index into `cells`, the live map lives at one
address, and each snapshot allocates a fresh address holding a copy.
-/

/-- A heap of JS `Map<number, string>` objects, each an insertion-ordered
association list. -/
structure MapHeap where
  cells : List (List (Int × String))
deriving DecidableEq, Repr

/-- Read the map object at address `a` (empty when dangling). -/
def readCell (h : MapHeap) (a : Nat) : List (Int × String) :=
  h.cells.getD a []

/-- Overwrite the map object at address `a`. -/
def writeCell (h : MapHeap) (a : Nat) (m : List (Int × String)) : MapHeap :=
  ⟨h.cells.set a m⟩

/-- `Map.prototype.set`: replace the value of an existing key in place,
else append the new entry. -/
def mapSet (m : List (Int × String)) (k : Int) (v : String) : List (Int × String) :=
  if m.any (fun p => decide (p.1 = k)) then
    m.map (fun p => if p.1 = k then (k, v) else p)
  else m ++ [(k, v)]

/-- `get_progress_status` (orchestrator.ts lines 200-202): allocate a
fresh map object holding a copy of the live map's entries, and return the
heap extended with it together with the new object's address. -/
def get_progress_status (h : MapHeap) (live : Nat) : MapHeap × Nat :=
  (⟨h.cells ++ [readCell h live]⟩, h.cells.length)

/-- A concrete one-object heap: the live progress map right after the
sentinel `INITIALIZING...` write. -/
def sampleHeap : MapHeap :=
  ⟨[[((-1 : Int), "INITIALIZING...")]]⟩

/-!
Helper lemmas.
-/

theorem race_slot_agent_id (taskTimeout i : Nat) (w : WorkerOutcome) :
    (race_slot taskTimeout i w).agent_id = i := by
  cases w <;> simp only [race_slot, timeout_result] <;> split <;> rfl

theorem dispatch_eq (taskTimeout : Nat) (behav : Nat → WorkerOutcome)
    (subtasks : List String) :
    dispatch taskTimeout behav subtasks
      = (List.range subtasks.length).map (fun i => race_slot taskTimeout i (behav i)) := by
  unfold dispatch sortByAgentId
  apply List.Sorted.insertionSort_eq
  rw [List.Sorted, List.pairwise_map]
  exact (List.pairwise_lt_range subtasks.length).imp
    (fun {a b} hab => by simp [race_slot_agent_id]; omega)

theorem dispatch_ids (taskTimeout : Nat) (behav : Nat → WorkerOutcome)
    (subtasks : List String) :
    (dispatch taskTimeout behav subtasks).map (fun r => r.agent_id)
      = List.range subtasks.length := by
  rw [dispatch_eq, List.map_map]
  have hcomp : ((fun r => AgentResult.agent_id r) ∘ fun i => race_slot taskTimeout i (behav i))
      = fun i => i := by
    funext i; simp [race_slot_agent_id]
  rw [hcomp]
  exact List.map_id _

theorem readCell_snapshot (h : MapHeap) (live : Nat) :
    readCell (get_progress_status h live).1 (get_progress_status h live).2
      = readCell h live := by
  simp [readCell, get_progress_status, List.getElem?_concat_length]

theorem readCell_snapshot_frame (h : MapHeap) (live a : Nat) (ha : a < h.cells.length) :
    readCell (get_progress_status h live).1 a = readCell h a := by
  simp [readCell, get_progress_status, List.getElem?_append_left ha]

theorem readCell_writeCell_ne (h : MapHeap) (a b : Nat) (m : List (Int × String))
    (hab : a ≠ b) : readCell (writeCell h a m) b = readCell h b := by
  simp [readCell, writeCell, List.getElem?_set_ne hab]

theorem aggregate_consensus_fallback_eq (m : String) (rs : List String)
    (h : 2 ≤ rs.length) :
    aggregate_consensus (Except.error m) rs
      = String.intercalate "\n\n" (labelResponses 0 rs) := by
  cases rs with
  | nil => simp at h
  | cons a t =>
      cases t with
      | nil => simp at h
      | cons b t2 => rfl

theorem aggregate_consensus_v2_fallback_eq (m : String) (rs : List String)
    (h : 2 ≤ rs.length) :
    aggregate_consensus_v2 (Except.error m) rs
      = String.intercalate "\n" (labelResponses 0 rs) := by
  cases rs with
  | nil => simp at h
  | cons a t =>
      cases t with
      | nil => simp at h
      | cons b t2 => rfl

theorem filter_sentinel_map_range (n : Nat) (f : Nat → String) :
    ((List.range n).map (fun (i : Nat) => ((i : Int), f i))).filter
      (fun e => decide (e.1 = (-1 : Int))) = [] := by
  apply List.filter_eq_nil_iff.mpr
  intro e he
  rcases List.mem_map.mp he with ⟨i, _, rfl⟩
  simp only [decide_eq_true_eq]
  omega

theorem filter_sentinel_flatMap (n : Nat) (f g : Nat → String) :
    ((List.range n).flatMap
        (fun (i : Nat) => [((i : Int), f i), ((i : Int), g i)])).filter
      (fun e => decide (e.1 = (-1 : Int))) = [] := by
  apply List.filter_eq_nil_iff.mpr
  intro e he
  rcases List.mem_flatMap.mp he with ⟨i, _, hmem⟩
  simp only [List.mem_cons, List.mem_singleton] at hmem
  rcases hmem with rfl | rfl | hmem
  · simp only [decide_eq_true_eq]; omega
  · simp only [decide_eq_true_eq]; omega
  · simp at hmem

/-!
Claim theorems.
-/

/-- Claim C1 (amended): `decompose_task` returns the worker's question list
verbatim when it parses to exactly `n` strings; in every other case (parse
failure, non-array, wrong length) it returns the fixed fallback list
truncated to `n`, a pure function of `(userInput, n)` alone, produced
without a further worker call — but the fallback list has only four
entries, so its length is `min 4 n`, which equals `n` only for `n ≤ 4`. -/
theorem C1_decompose_length (u : String) (n : Nat) :
    (∀ qs : List String, qs.length = n →
        decompose_task u n (ParseResult.arr qs) = qs)
    ∧ (∀ p : ParseResult, (∀ qs, p = ParseResult.arr qs → qs.length ≠ n) →
        decompose_task u n p = (fallbackQuestions u).take n
        ∧ (decompose_task u n p).length = min 4 n) := by
  constructor
  · intro qs h
    simp [decompose_task, h]
  · intro p hp
    have hfb : decompose_task u n p = (fallbackQuestions u).take n := by
      cases p with
      | arr qs =>
          have hne : qs.length ≠ n := hp qs rfl
          simp [decompose_task, hne]
      | fail => rfl
      | nonArray => rfl
    refine ⟨hfb, ?_⟩
    rw [hfb, List.length_take]
    have h4 : (fallbackQuestions u).length = 4 := rfl
    rw [h4, Nat.min_comm]

/-- Claim C1, counterexample to the claim as stated: with `n = 5` and a
failed parse, the fallback has length 4, not 5. -/
theorem C1_decompose_length_counterexample :
    (decompose_task "quantum computing" 5 ParseResult.fail).length = 4
    ∧ ¬ ((decompose_task "quantum computing" 5 ParseResult.fail).length = 5) := by
  decide

/-- Claim C1, witness: the amended theorem applied to a length-5 worker
list and to a failed parse at `n = 5`. -/
theorem C1_decompose_length_witness :
    decompose_task "q" 5 (ParseResult.arr ["a", "b", "c", "d", "e"])
      = ["a", "b", "c", "d", "e"]
    ∧ (decompose_task "q" 5 ParseResult.fail).length = min 4 5 :=
  ⟨(C1_decompose_length "q" 5).1 ["a", "b", "c", "d", "e"] (by decide),
   ((C1_decompose_length "q" 5).2 ParseResult.fail
      (fun qs h => ParseResult.noConfusion h)).2⟩

/-- Claim C2 (amended): the outcome sequence handed to the aggregator has
exactly one `AgentResult` per dispatched slot — the slots `[0, k)` where
`k` is the length of the decomposed subtask list — in ascending slot
order, regardless of worker behaviour; `k` equals the configured agent
count whenever decomposition produced that many subtasks (always so for
counts at most 4), but the fallback of a failed decomposition with more
than four agents dispatches only four slots. -/
theorem C2_outcomes_per_slot (taskTimeout numAgents : Nat) (env : RunEnv)
    (u : String) :
    (orchestrate_outcomes taskTimeout numAgents env u).map (fun r => r.agent_id)
      = List.range (decompose_task u numAgents env.parsed).length
    ∧ List.Sorted (· ≤ ·)
        ((orchestrate_outcomes taskTimeout numAgents env u).map (fun r => r.agent_id)) := by
  refine ⟨dispatch_ids taskTimeout env.behav _, ?_⟩
  rw [orchestrate_outcomes, dispatch_ids]
  exact List.sorted_le_range _

/-- Claim C2, counterexample to the claim as stated: a run configured for
5 agents whose decomposition fell back dispatches only slots 0-3, so slot
4 receives no outcome. -/
theorem C2_outcomes_per_slot_counterexample :
    ¬ ((orchestrate_outcomes 5 5
          ⟨ParseResult.fail, fun _ => WorkerOutcome.ok "r" 1000, Except.ok "s"⟩ "x").map
        (fun r => r.agent_id) = List.range 5) := by
  decide

/-- Claim C3 (code bug): the losing race branch of a slot mutates the
slot's recorded progress state after the winner has finalized it.  The
un-cancelled timer of a slot whose worker completed at 2s (timeout 5s)
later overwrites `COMPLETED` with `FAILED: Timeout`; an abandoned worker
settling at 7s overwrites `FAILED: Timeout` with `COMPLETED`.  Only the
race *outcome* is first-settlement-durable: the recorded `AgentResult` of
a timed-out slot keeps the synthetic timeout record. -/
theorem C3_losing_branch_mutates :
    slot_history 5 (WorkerOutcome.ok "analysis text" 2000)
      = ["PROCESSING...", "COMPLETED", "FAILED: Timeout"]
    ∧ slot_history 5 (WorkerOutcome.ok "late analysis" 7000)
      = ["PROCESSING...", "FAILED: Timeout", "COMPLETED"]
    ∧ race_slot 5 0 (WorkerOutcome.ok "late analysis" 7000)
      = { agent_id := 0, status := .timeout,
          response := "Agent 1 timed out after 5s", execution_time := 5 } := by
  decide

/-- Claim C4 (confirmed): whenever a slot's timer fires before its worker
settles, the recorded outcome has status `timeout`, execution time equal
to the configured timeout value, and the synthetic
`Agent (i+1) timed out after (T)s` diagnostic as its response — never
worker output.  The dispatch and run functions of the model are total, so
the run still completes. -/
theorem C4_timeout_outcome (taskTimeout i : Nat) (w : WorkerOutcome)
    (h : taskTimeout * 1000 < w.timeMs) :
    race_slot taskTimeout i w
      = { agent_id := i, status := .timeout,
          response := s!"Agent {i + 1} timed out after {taskTimeout}s",
          execution_time := (taskTimeout : Rat) } := by
  cases w with
  | ok r t =>
      simp only [WorkerOutcome.timeMs] at h
      simp only [race_slot]
      rw [if_neg (by omega)]
      rfl
  | err m t =>
      simp only [WorkerOutcome.timeMs] at h
      simp only [race_slot]
      rw [if_neg (by omega)]
      rfl

/-- Claim C4, witness: a worker that would resolve at 7s against a 5s
timeout yields the synthetic timeout outcome. -/
theorem C4_timeout_outcome_witness :
    5 * 1000 < (WorkerOutcome.ok "slow worker" 7000).timeMs
    ∧ race_slot 5 0 (WorkerOutcome.ok "slow worker" 7000)
      = { agent_id := 0, status := .timeout,
          response := "Agent 1 timed out after 5s", execution_time := (5 : Rat) } := by
  refine ⟨by decide, ?_⟩
  rw [C4_timeout_outcome 5 0 (WorkerOutcome.ok "slow worker" 7000) (by decide)]
  decide

/-- Claim C5 (confirmed): on an outcome sequence with no success-status
entry — including the empty, all-error and all-timeout cases —
`aggregate_results` returns exactly the fixed failure message, as a normal
return value (the model function is total and never throws). -/
theorem C5_all_failed (strategy : String) (synth : Except String String)
    (results : List AgentResult)
    (h : ∀ r ∈ results, r.status ≠ ResultStatus.success) :
    aggregate_results strategy synth results
      = "All agents failed to provide results. Please try again." := by
  have hf : results.filter (fun r => decide (r.status = ResultStatus.success)) = [] :=
    List.filter_eq_nil_iff.mpr (fun r hr => by simp [h r hr])
  simp [aggregate_results, hf]

/-- Claim C5, witness: one error outcome plus one timeout outcome yield
the fixed failure message. -/
theorem C5_all_failed_witness :
    (∀ r ∈ ([⟨0, .error, "Error: boom", 0⟩,
             ⟨1, .timeout, "Agent 2 timed out after 5s", 5⟩] :
        List AgentResult), r.status ≠ ResultStatus.success)
    ∧ aggregate_results "consensus" (Except.ok "SYN")
        [⟨0, .error, "Error: boom", 0⟩,
         ⟨1, .timeout, "Agent 2 timed out after 5s", 5⟩]
      = "All agents failed to provide results. Please try again." :=
  ⟨by decide, C5_all_failed "consensus" (Except.ok "SYN") _ (by decide)⟩

/-- Claim C6 (confirmed): on an outcome sequence whose success-status
entries are exactly one outcome `r`, `aggregate_results` returns
`r.response` unchanged, for every synthesis behaviour — so no synthesis
worker call can influence (or be needed for) the result. -/
theorem C6_single_success (strategy : String) (synth : Except String String)
    (results : List AgentResult) (r : AgentResult)
    (h : results.filter (fun x => decide (x.status = ResultStatus.success)) = [r]) :
    aggregate_results strategy synth results = r.response := by
  simp only [aggregate_results, h]
  norm_num
  rfl

/-- Claim C6, witness: one error outcome plus one success outcome yield
the success response verbatim. -/
theorem C6_single_success_witness :
    ([⟨0, .error, "e", 0⟩, ⟨1, .success, "B", 1⟩] : List AgentResult).filter
        (fun x => decide (x.status = ResultStatus.success)) = [⟨1, .success, "B", 1⟩]
    ∧ aggregate_results "consensus" (Except.ok "SYN")
        [⟨0, .error, "e", 0⟩, ⟨1, .success, "B", 1⟩] = "B" :=
  ⟨by decide,
   C6_single_success "consensus" (Except.ok "SYN") _ ⟨1, .success, "B", 1⟩ (by decide)⟩

/-- Claim C7 (amended): with at least two success-status outcomes and a
failing synthesis call, both aggregators return the deterministic
fallback — the successful responses prefixed with their
`=== Agent k Response ===` labels in original order, a pure total function
of the responses that never surfaces the synthesis error message — but
only the primary orchestrator separates them with blank lines
(`'\n\n'`); the `make_it_heavy.ts` variant joins them with a single
newline. -/
theorem C7_synthesis_fallback (strategy m : String) (results : List AgentResult)
    (h : 2 ≤ (results.filter (fun r => decide (r.status = ResultStatus.success))).length) :
    aggregate_results strategy (Except.error m) results
      = String.intercalate "\n\n"
          (labelResponses 0
            ((results.filter (fun r => decide (r.status = ResultStatus.success))).map
              (fun r => r.response)))
    ∧ aggregate_results_v2 (Except.error m) results
      = String.intercalate "\n"
          (labelResponses 0
            ((results.filter (fun r => decide (r.status = ResultStatus.success))).map
              (fun r => r.response))) := by
  have hne : ¬ ((results.filter
      (fun r => decide (r.status = ResultStatus.success))).length = 0) := by
    omega
  have hmap : 2 ≤ ((results.filter
      (fun r => decide (r.status = ResultStatus.success))).map
        (fun r => r.response)).length := by
    rw [List.length_map]; exact h
  constructor
  · simp only [aggregate_results]
    rw [if_neg hne]
    split
    · exact aggregate_consensus_fallback_eq m _ hmap
    · exact aggregate_consensus_fallback_eq m _ hmap
  · simp only [aggregate_results_v2]
    rw [if_neg hne]
    exact aggregate_consensus_v2_fallback_eq m _ hmap

/-- Claim C7, counterexample to the claim as stated: the
`make_it_heavy.ts` variant's fallback on two successful responses has no
blank line between the labelled sections. -/
theorem C7_synthesis_fallback_counterexample :
    aggregate_results_v2 (Except.error "boom")
        [⟨0, .success, "A", 1⟩, ⟨1, .success, "B", 1⟩]
      = "=== Agent 1 Response ===\nA\n=== Agent 2 Response ===\nB"
    ∧ ¬ (aggregate_results_v2 (Except.error "boom")
        [⟨0, .success, "A", 1⟩, ⟨1, .success, "B", 1⟩]
      = "=== Agent 1 Response ===\nA\n\n=== Agent 2 Response ===\nB") := by
  decide

/-- Claim C7, witness: two successful responses with a failing synthesis
call, under both aggregator variants. -/
theorem C7_synthesis_fallback_witness :
    2 ≤ (([⟨0, .success, "A", 1⟩, ⟨1, .success, "B", 1⟩] : List AgentResult).filter
        (fun r => decide (r.status = ResultStatus.success))).length
    ∧ aggregate_results "consensus" (Except.error "boom")
        [⟨0, .success, "A", 1⟩, ⟨1, .success, "B", 1⟩]
      = "=== Agent 1 Response ===\nA\n\n=== Agent 2 Response ===\nB"
    ∧ aggregate_results_v2 (Except.error "boom")
        [⟨0, .success, "A", 1⟩, ⟨1, .success, "B", 1⟩]
      = "=== Agent 1 Response ===\nA\n=== Agent 2 Response ===\nB" := by
  refine ⟨by decide, ?_, ?_⟩
  · rw [(C7_synthesis_fallback "consensus" "boom"
      [⟨0, .success, "A", 1⟩, ⟨1, .success, "B", 1⟩] (by decide)).1]
    decide
  · rw [(C7_synthesis_fallback "consensus" "boom"
      [⟨0, .success, "A", 1⟩, ⟨1, .success, "B", 1⟩] (by decide)).2]
    decide

/-- Claim C8 (confirmed): `get_progress_status` copies the live progress
map into a fresh object.  Two consecutive snapshots with no intervening
update have equal contents, and mutating a returned snapshot (a `set` on
the snapshot object) changes neither the live map nor the content of any
subsequently returned snapshot. -/
theorem C8_snapshot_isolation (h : MapHeap) (live : Nat)
    (hlive : live < h.cells.length) (k : Int) (v : String) :
    readCell (get_progress_status h live).1 (get_progress_status h live).2
      = readCell (get_progress_status (get_progress_status h live).1 live).1
          (get_progress_status (get_progress_status h live).1 live).2
    ∧ readCell
        (writeCell (get_progress_status h live).1 (get_progress_status h live).2
          (mapSet (readCell (get_progress_status h live).1 (get_progress_status h live).2) k v))
        live
      = readCell h live
    ∧ readCell
        (get_progress_status
          (writeCell (get_progress_status h live).1 (get_progress_status h live).2
            (mapSet (readCell (get_progress_status h live).1 (get_progress_status h live).2) k v))
          live).1
        (get_progress_status
          (writeCell (get_progress_status h live).1 (get_progress_status h live).2
            (mapSet (readCell (get_progress_status h live).1 (get_progress_status h live).2) k v))
          live).2
      = readCell h live := by
  have hlive_ne : (get_progress_status h live).2 ≠ live := by
    simp only [get_progress_status]
    omega
  have hwrite : readCell
      (writeCell (get_progress_status h live).1 (get_progress_status h live).2
        (mapSet (readCell (get_progress_status h live).1 (get_progress_status h live).2) k v))
      live = readCell h live := by
    rw [readCell_writeCell_ne _ _ _ _ hlive_ne]
    exact readCell_snapshot_frame h live live hlive
  refine ⟨?_, hwrite, ?_⟩
  · rw [readCell_snapshot, readCell_snapshot]
    exact (readCell_snapshot_frame h live live hlive).symm
  · rw [readCell_snapshot]
    exact hwrite

/-- Claim C8, witness: the snapshot-isolation properties on a concrete
one-entry live map, with a `set` of slot 0 to `QUEUED` on the snapshot. -/
theorem C8_snapshot_isolation_witness :
    (0 : Nat) < sampleHeap.cells.length
    ∧ (readCell (get_progress_status sampleHeap 0).1 (get_progress_status sampleHeap 0).2
        = readCell (get_progress_status (get_progress_status sampleHeap 0).1 0).1
            (get_progress_status (get_progress_status sampleHeap 0).1 0).2
      ∧ readCell
          (writeCell (get_progress_status sampleHeap 0).1 (get_progress_status sampleHeap 0).2
            (mapSet (readCell (get_progress_status sampleHeap 0).1
              (get_progress_status sampleHeap 0).2) 0 "QUEUED"))
          0
        = readCell sampleHeap 0
      ∧ readCell
          (get_progress_status
            (writeCell (get_progress_status sampleHeap 0).1 (get_progress_status sampleHeap 0).2
              (mapSet (readCell (get_progress_status sampleHeap 0).1
                (get_progress_status sampleHeap 0).2) 0 "QUEUED"))
            0).1
          (get_progress_status
            (writeCell (get_progress_status sampleHeap 0).1 (get_progress_status sampleHeap 0).2
              (mapSet (readCell (get_progress_status sampleHeap 0).1
                (get_progress_status sampleHeap 0).2) 0 "QUEUED"))
            0).2
        = readCell sampleHeap 0) :=
  ⟨by decide, C8_snapshot_isolation sampleHeap 0 (by decide) 0 "QUEUED"⟩

/-- Claim C9 (confirmed): over the whole progress-update trace of a run,
the sentinel slot `-1` receives exactly the statuses `INITIALIZING...`
then `AGGREGATING...`, in that order, and is never assigned
`COMPLETED`. -/
theorem C9_sentinel_statuses (taskTimeout numAgents : Nat) (env : RunEnv)
    (u : String) :
    ((run_trace taskTimeout numAgents env u).filter
        (fun e => decide (e.1 = (-1 : Int)))).map (fun e => e.2)
      = ["INITIALIZING...", "AGGREGATING..."]
    ∧ ∀ e ∈ run_trace taskTimeout numAgents env u, e.1 = -1 → e.2 ≠ "COMPLETED" := by
  have hfilter : (run_trace taskTimeout numAgents env u).filter
      (fun e => decide (e.1 = (-1 : Int)))
      = [((-1 : Int), "INITIALIZING..."), ((-1 : Int), "AGGREGATING...")] := by
    simp only [run_trace, List.filter_append, filter_sentinel_map_range,
      filter_sentinel_flatMap]
    rfl
  constructor
  · rw [hfilter]; rfl
  · intro e he hneg
    have hmem : e ∈ (run_trace taskTimeout numAgents env u).filter
        (fun x => decide (x.1 = (-1 : Int))) :=
      List.mem_filter.mpr ⟨he, by simp [hneg]⟩
    rw [hfilter] at hmem
    simp only [List.mem_cons, List.mem_singleton] at hmem
    rcases hmem with rfl | rfl | hmem
    · simp
    · simp
    · simp at hmem

/-- Claim C9, witness: the sentinel statuses of a concrete two-agent run,
and the sentinel `INITIALIZING...` event not being `COMPLETED`. -/
theorem C9_sentinel_statuses_witness :
    ((run_trace 5 2
        ⟨ParseResult.fail, fun _ => WorkerOutcome.ok "r" 1000, Except.ok "s"⟩ "x").filter
        (fun e => decide (e.1 = (-1 : Int)))).map (fun e => e.2)
      = ["INITIALIZING...", "AGGREGATING..."]
    ∧ (((-1 : Int), "INITIALIZING...") : Int × String).2 ≠ "COMPLETED" :=
  ⟨(C9_sentinel_statuses 5 2
      ⟨ParseResult.fail, fun _ => WorkerOutcome.ok "r" 1000, Except.ok "s"⟩ "x").1,
   (C9_sentinel_statuses 5 2
      ⟨ParseResult.fail, fun _ => WorkerOutcome.ok "r" 1000, Except.ok "s"⟩ "x").2
     ((-1 : Int), "INITIALIZING...") (by decide) (by decide)⟩

/-- Claim C10 (confirmed): with a configured agent count of 0,
`orchestrate` raises no configuration error: decomposition always yields
the empty subtask list, zero slots are dispatched, and the run returns the
fixed all-agents-failed message. -/
theorem C10_zero_agents (taskTimeout : Nat) (strategy : String) (env : RunEnv)
    (u : String) :
    decompose_task u 0 env.parsed = []
    ∧ orchestrate taskTimeout 0 strategy env u
      = "All agents failed to provide results. Please try again." := by
  have hdec : decompose_task u 0 env.parsed = [] := by
    rcases env.parsed with _ | _ | qs
    · rfl
    · rfl
    · simp only [decompose_task]
      split
      · next hlen => exact List.length_eq_zero.mp hlen
      · rfl
  refine ⟨hdec, ?_⟩
  simp [orchestrate, orchestrate_outcomes, hdec, dispatch, sortByAgentId,
    aggregate_results]
